import Mathlib

/-!
Shallow embedding of the ticket/inventory core of the Suites repository
(src/types.ts, src/utils.ts, src/AppContext.tsx), together with theorems
settling the frozen claims about it.

Modelling conventions:
* JavaScript numbers that hold stock quantities, deltas and timestamps are
  modelled as `Int` (the code only ever adds, subtracts, `Math.floor`s,
  `Math.trunc`s and `Math.max`es integer-valued data on these paths, so
  `Math.floor`/`Math.trunc` are the identity and `Number.isFinite` is
  always true).
* `priorityScore` arithmetic (src/utils.ts `calculatePriority`) mixes a
  fractional age term, so it is modelled over `ℚ`; `Math.round x` is
  `⌊x + 1/2⌋` (JavaScript rounds halves toward +∞).
* ISO-string dates produced by successive `new Date()` calls are modelled
  by a logical clock: `AppState.now : Int` is the wall clock used for
  audit entries and priority recomputation, and each appended movement
  stamps `AppState.tick : Nat` and increments it, so movement timestamps
  are strictly increasing in insertion order.
* JavaScript truthiness tests on optional strings/numbers (`x || d`,
  `if (x)`) are modelled by `jsOrStr`/`jsOrInt`/`truthyStr`/`truthyInt`
  (empty string and zero are falsy).
* React `setState` updater chains inside one handler are modelled as
  sequential pure state transformations on an `AppState` record.
-/

namespace Suites

/-- src/types.ts `Role`. -/
inductive Role
  | MANAGEMENT
  | CLEANING
  | RECEPTION
  | MAINTENANCE
deriving DecidableEq

/-- src/types.ts `Urgency`. -/
inductive Urgency
  | LOW
  | MEDIUM
  | HIGH
deriving DecidableEq

/-- src/types.ts `Impact`. -/
inductive Impact
  | NONE
  | ANNOYING
  | BLOCKING
deriving DecidableEq

/-- src/types.ts `TicketStatus`. -/
inductive TicketStatus
  | OPEN
  | IN_PROGRESS
  | WAITING_PART
  | VENDOR
  | RESOLVED
  | VERIFIED
deriving DecidableEq

/-- src/types.ts `AuditEvent`: `date` is the ISO timestamp (modelled as ms). -/
structure AuditEvent where
  date : Int
  action : String
  user : Role
deriving DecidableEq

/-- src/types.ts `InventoryPart` (DEMO metadata kept as plain strings). -/
structure InventoryPart where
  id : String
  name : String
  category : String
  unit : String
  stockOnHand : Int
  stockReserved : Int
  minStock : Int
  preferredVendor : Option String := none
  leadTimeDays : Option Int := none
  location : Option String := none
  sku : Option String := none
deriving DecidableEq

/-- src/types.ts `PartMovementType`. -/
inductive PartMovementType
  | RESERVE
  | RELEASE
  | ISSUE
  | RECEIVE
  | ADJUST
  | PO_CREATED
  | PO_SENT
  | PO_RECEIVED
deriving DecidableEq

/-- src/types.ts `PartMovement`. Movement ids `M-n` and PO ids `OC-n` are
modelled by their numeric part; `date` is the logical movement clock. -/
structure PartMovement where
  id : Nat
  partId : String
  mtype : PartMovementType
  qty : Int
  date : Nat
  user : Role
  note : Option String := none
  ticketId : Option String := none
  poId : Option Nat := none
deriving DecidableEq

/-- src/types.ts `POStatus`. -/
inductive POStatus
  | DRAFT
  | ORDERED
  | RECEIVED
  | CANCELED
deriving DecidableEq

/-- src/types.ts `PurchaseOrderItem`. -/
structure PurchaseOrderItem where
  partId : String
  partName : String
  qty : Int
  unit : Option String := none
deriving DecidableEq

/-- src/types.ts `PurchaseOrder`. -/
structure PurchaseOrder where
  id : Nat
  status : POStatus
  createdAt : Int
  createdBy : Role
  vendor : String
  etaDate : Option Int := none
  items : List PurchaseOrderItem
  notes : Option String := none
deriving DecidableEq

/-- src/types.ts `Ticket`. -/
structure Ticket where
  id : String
  roomNumber : String
  isOccupied : Bool
  asset : String
  issueType : String
  description : String
  urgency : Urgency
  impact : Impact
  status : TicketStatus
  createdAt : Int
  createdBy : Role
  assignedTo : Option String := none
  notes : List String := []
  history : List AuditEvent := []
  needsPart : Option Bool := none
  partId : Option String := none
  partName : Option String := none
  partQty : Option Int := none
  needsVendor : Option Bool := none
  vendorType : Option String := none
  poId : Option Nat := none
  verifiedBy : Option String := none
  closedAt : Option Int := none
  priorityScore : Int := 0
deriving DecidableEq

/-! JavaScript truthiness helpers (`x || d`, `if (x)`). -/

/-- JavaScript `s || d` for an optional string: empty string is falsy. -/
def jsOrStr (s : Option String) (d : String) : String :=
  match s with
  | some v => if v = "" then d else v
  | none => d

/-- JavaScript `n || d` for an optional number: zero is falsy. -/
def jsOrInt (n : Option Int) (d : Int) : Int :=
  match n with
  | some v => if v = 0 then d else v
  | none => d

/-- JavaScript `if (x)` for an optional string. -/
def truthyStr (s : Option String) : Bool :=
  match s with
  | some v => decide (v ≠ "")
  | none => false

/-- JavaScript `if (x)` for an optional number. -/
def truthyInt (n : Option Int) : Bool :=
  match n with
  | some v => decide (v ≠ 0)
  | none => false

/-! src/utils.ts -/

/-- JavaScript `Math.round` on a rational: halves round toward +∞. -/
def jsRound (x : ℚ) : Int := ⌊x + 1 / 2⌋

/-- Milliseconds in one day (`1000 * 3600 * 24`). -/
def msPerDay : ℚ := 1000 * 3600 * 24

/-- src/utils.ts `calculatePriority`: 0 for RESOLVED/VERIFIED tickets,
otherwise the rounded sum of urgency, impact, occupancy and the capped age
term.  `now` is the evaluation instant (`new Date().getTime()`). -/
def calculatePriority (now : Int) (t : Ticket) : Int :=
  if t.status = TicketStatus.RESOLVED ∨ t.status = TicketStatus.VERIFIED then 0
  else
    let urgencyPts : ℚ :=
      match t.urgency with
      | Urgency.HIGH => 50
      | Urgency.MEDIUM => 30
      | Urgency.LOW => 10
    let impactPts : ℚ :=
      match t.impact with
      | Impact.BLOCKING => 40
      | Impact.ANNOYING => 20
      | Impact.NONE => 0
    let occupancyPts : ℚ := if t.isOccupied then 30 else 0
    let daysOpen : ℚ := ((now : ℚ) - (t.createdAt : ℚ)) / msPerDay
    jsRound (urgencyPts + impactPts + occupancyPts + min (daysOpen * 5) 30)

/-- src/utils.ts `clampNonNeg` (on integers `Number.isFinite` always holds). -/
def clampNonNeg (n : Int) : Int := max 0 n

/-- src/utils.ts `getAvailableStock`. -/
def getAvailableStock (p : InventoryPart) : Int :=
  clampNonNeg (p.stockOnHand - p.stockReserved)

/-! src/AppContext.tsx -/

/-- The provider state: the four collections plus the selected role and the
clocks described in the module header. -/
structure AppState where
  role : Role
  tickets : List Ticket
  parts : List InventoryPart
  pos : List PurchaseOrder
  movements : List PartMovement
  now : Int
  tick : Nat
deriving DecidableEq

/-- Structured `{ ok, message }` result of the inventory commands
(`poId` is the extra field returned by `createPOForPart`). -/
structure CmdResult where
  ok : Bool
  message : String
  poId : Option Nat := none
deriving DecidableEq

/-- src/AppContext.tsx `nextId` on the numeric parts of the ids
(`reduce` of `Math.max` over the parsed ids, seeded with `start`, plus 1). -/
def nextIdNum (ids : List Nat) (start : Nat) : Nat :=
  ids.foldl max start + 1

/-- src/AppContext.tsx `nextMovementId`. -/
def nextMovementId (movs : List PartMovement) : Nat :=
  nextIdNum (movs.map (fun m => m.id)) 0

/-- src/AppContext.tsx `nextPOId`. -/
def nextPOId (pos : List PurchaseOrder) : Nat :=
  nextIdNum (pos.map (fun p => p.id)) 0

/-- src/AppContext.tsx `createAudit`. -/
def createAudit (now : Int) (user : Role) (action : String) : AuditEvent :=
  { date := now, action := action, user := user }

/-- src/AppContext.tsx `permissions.canReserve`
(`role === MANAGEMENT || role === MAINTENANCE`). -/
def canReserve (r : Role) : Bool :=
  r = Role.MANAGEMENT || r = Role.MAINTENANCE

/-- src/AppContext.tsx `permissions.canCreatePO` (management only). -/
def canCreatePO (r : Role) : Bool :=
  r = Role.MANAGEMENT

/-- src/AppContext.tsx `permissions.canAdjustStock` (management only). -/
def canAdjustStock (r : Role) : Bool :=
  r = Role.MANAGEMENT

/-- Argument record of src/AppContext.tsx `addMovement`
(the movement minus `id`, `date`, `user`). -/
structure MovementDraft where
  partId : String
  mtype : PartMovementType
  qty : Int
  note : Option String := none
  ticketId : Option String := none
  poId : Option Nat := none
deriving DecidableEq

/-- src/AppContext.tsx `addMovement`: prepend the stamped movement and
advance the movement clock. -/
def addMovement (s : AppState) (m : MovementDraft) : AppState :=
  { s with
    movements :=
      { id := nextMovementId s.movements
        partId := m.partId
        mtype := m.mtype
        qty := m.qty
        date := s.tick
        user := s.role
        note := m.note
        ticketId := m.ticketId
        poId := m.poId } :: s.movements
    tick := s.tick + 1 }

/-- The `Partial<Ticket>` patches actually passed to `updateTicket` by the
engine and the UI (a `some` field is spread over the ticket). -/
structure TicketPatch where
  status : Option TicketStatus := none
  needsPart : Option Bool := none
  partId : Option String := none
  partName : Option String := none
  partQty : Option Int := none
  poId : Option Nat := none
  needsVendor : Option Bool := none
  vendorType : Option String := none
deriving DecidableEq

/-- Object spread `{ ...t, ...updates }` for a `TicketPatch`. -/
def applyPatch (t : Ticket) (u : TicketPatch) : Ticket :=
  { t with
    status := u.status.getD t.status
    needsPart := match u.needsPart with | some b => some b | none => t.needsPart
    partId := match u.partId with | some v => some v | none => t.partId
    partName := match u.partName with | some v => some v | none => t.partName
    partQty := match u.partQty with | some v => some v | none => t.partQty
    poId := match u.poId with | some v => some v | none => t.poId
    needsVendor := match u.needsVendor with | some b => some b | none => t.needsVendor
    vendorType := match u.vendorType with | some v => some v | none => t.vendorType }

/-- The body of src/AppContext.tsx `updateTicket` for the matching ticket:
apply the patch, append one audit event and recompute `priorityScore`. -/
def patchTicket (now : Int) (role : Role) (t : Ticket) (u : TicketPatch) (action : String) :
    Ticket :=
  let updated := applyPatch t u
  let updated := { updated with history := updated.history ++ [createAudit now role action] }
  { updated with priorityScore := calculatePriority now updated }

/-- src/AppContext.tsx `updateTicket`: apply the patch to the matching
ticket, append one audit event and recompute `priorityScore`. -/
def updateTicket (s : AppState) (id : String) (u : TicketPatch) (action : String) : AppState :=
  { s with
    tickets := s.tickets.map (fun t =>
      if t.id = id then patchTicket s.now s.role t u action else t) }

/-- The normalisation `Math.max(1, Math.floor(qty || 1))` applied to the
requested quantity (integer inputs, so `Math.floor` is the identity). -/
def normQty (qty : Int) : Int := max 1 (jsOrInt (some qty) 1)

/-- The insufficient-stock failure message of `reservePartForTicket`. -/
def insufficientMsg (available q : Int) : String :=
  "Stock insuficiente. Disponible: " ++ toString available ++
    ". Requerido: " ++ toString q ++ "."

/-- src/AppContext.tsx `reservePartForTicket` guard
`ticket.partId && ticket.partQty && ticket.partQty > 0`. -/
def hasPriorReservation (t : Ticket) : Bool :=
  truthyStr t.partId && decide (0 < t.partQty.getD 0)

/-- src/AppContext.tsx `reservePartForTicket`. -/
def reservePartForTicket (s : AppState) (ticketId partId : String) (qty : Int) :
    CmdResult × AppState :=
  if !canReserve s.role then
    ({ ok := false, message := "Permiso insuficiente para reservar refacciones." }, s)
  else
    let q := normQty qty
    match s.tickets.find? (fun t => t.id = ticketId) with
    | none => ({ ok := false, message := "Ticket no encontrado." }, s)
    | some ticket =>
      match s.parts.find? (fun p => p.id = partId) with
      | none => ({ ok := false, message := "Refacción no encontrada." }, s)
      | some part =>
        let available := clampNonNeg (part.stockOnHand - part.stockReserved)
        if available < q then
          ({ ok := false, message := insufficientMsg available q }, s)
        else
          let s1 :=
            if hasPriorReservation ticket then
              let oldPid := ticket.partId.getD ""
              let oldQty := ticket.partQty.getD 0
              let sR := { s with
                parts := s.parts.map (fun p =>
                  if p.id = oldPid then
                    { p with stockReserved := clampNonNeg (p.stockReserved - oldQty) }
                  else p) }
              addMovement sR
                { partId := oldPid
                  mtype := PartMovementType.RELEASE
                  qty := oldQty
                  note := some "Cambio de refacción / ajuste de reserva (DEMO)"
                  ticketId := some ticketId }
            else s
          let s2 := { s1 with
            parts := s1.parts.map (fun p =>
              if p.id = partId then { p with stockReserved := p.stockReserved + q } else p) }
          let s3 := updateTicket s2 ticketId
            { needsPart := some true
              status := some TicketStatus.WAITING_PART
              partId := some partId
              partName := some part.name
              partQty := some q }
            ("Reservada refacción: " ++ part.name ++ " (x" ++ toString q ++ ")")
          let s4 := addMovement s3
            { partId := partId
              mtype := PartMovementType.RESERVE
              qty := q
              note := some ("Reserva para ticket " ++ ticketId)
              ticketId := some ticketId }
          ({ ok := true, message := "Refacción reservada correctamente." }, s4)

/-- src/AppContext.tsx `releaseReservationForTicket`. -/
def releaseReservationForTicket (s : AppState) (ticketId : String) (note : Option String) :
    CmdResult × AppState :=
  if !canReserve s.role then
    ({ ok := false, message := "Permiso insuficiente para liberar reservas." }, s)
  else
    match s.tickets.find? (fun t => t.id = ticketId) with
    | none => ({ ok := false, message := "Ticket no encontrado." }, s)
    | some ticket =>
      if !(truthyStr ticket.partId && truthyInt ticket.partQty) then
        ({ ok := false, message := "Este ticket no tiene refacción reservada." }, s)
      else
        let pid := ticket.partId.getD ""
        let pq := ticket.partQty.getD 0
        let s1 := { s with
          parts := s.parts.map (fun p =>
            if p.id = pid then { p with stockReserved := clampNonNeg (p.stockReserved - pq) }
            else p) }
        let s2 := addMovement s1
          { partId := pid
            mtype := PartMovementType.RELEASE
            qty := pq
            note := some (jsOrStr note "Liberación de reserva (DEMO)")
            ticketId := some ticketId }
        let s3 := updateTicket s2 ticketId { needsPart := some false } "Reserva liberada"
        ({ ok := true, message := "Reserva liberada correctamente." }, s3)

/-- src/AppContext.tsx `issueReservedPartForTicket`. -/
def issueReservedPartForTicket (s : AppState) (ticketId : String) (note : Option String) :
    CmdResult × AppState :=
  if !canReserve s.role then
    ({ ok := false, message := "Permiso insuficiente para consumir refacciones." }, s)
  else
    match s.tickets.find? (fun t => t.id = ticketId) with
    | none => ({ ok := false, message := "Ticket no encontrado." }, s)
    | some ticket =>
      if !(truthyStr ticket.partId && truthyInt ticket.partQty) then
        ({ ok := false, message := "Este ticket no tiene refacción vinculada." }, s)
      else
        match s.parts.find? (fun p => p.id = ticket.partId.getD "") with
        | none => ({ ok := false, message := "Refacción no encontrada." }, s)
        | some part =>
          let q := max 1 (jsOrInt ticket.partQty 1)
          let s1 := { s with
            parts := s.parts.map (fun p =>
              if p.id = ticket.partId.getD "" then
                { p with
                  stockReserved := clampNonNeg (p.stockReserved - q)
                  stockOnHand := clampNonNeg (p.stockOnHand - q) }
              else p) }
          let s2 := addMovement s1
            { partId := ticket.partId.getD ""
              mtype := PartMovementType.ISSUE
              qty := q
              note := some (jsOrStr note "Salida a mantenimiento (DEMO)")
              ticketId := some ticketId }
          let s3 := updateTicket s2 ticketId { needsPart := some false }
            ("Refacción utilizada: " ++ part.name ++ " (x" ++ toString q ++ ")")
          ({ ok := true, message := "Refacción marcada como consumida." }, s3)

/-- Display form of a PO id (`OC-n`). -/
def poIdStr (n : Nat) : String := "OC-" ++ toString n

/-- src/AppContext.tsx `createPOForPart`.  Calendar-day ETA arithmetic
(`eta.setDate(...)`) is modelled as adding whole days in milliseconds. -/
def createPOForPart (s : AppState) (partId : String) (qty : Int)
    (vendor : Option String) (etaDays : Option Int) (ticketId : Option String) :
    CmdResult × AppState :=
  if !canCreatePO s.role then
    ({ ok := false, message := "Solo Gerencia puede generar OC (DEMO)." }, s)
  else
    match s.parts.find? (fun p => p.id = partId) with
    | none => ({ ok := false, message := "Refacción no encontrada." }, s)
    | some part =>
      let q := normQty qty
      let vend := jsOrStr vendor (jsOrStr part.preferredVendor "Proveedor (DEMO)")
      let eta := s.now + 86400000 * (etaDays.getD (part.leadTimeDays.getD 3))
      let newPO : PurchaseOrder :=
        { id := nextPOId s.pos
          status := POStatus.ORDERED
          createdAt := s.now
          createdBy := s.role
          vendor := vend
          etaDate := some eta
          items := [{ partId := part.id, partName := part.name, qty := q, unit := some part.unit }]
          notes := some "OC generada en DEMO (no implica compra real)." }
      let s1 := { s with pos := newPO :: s.pos }
      let s2 := addMovement s1
        { partId := part.id
          mtype := PartMovementType.PO_CREATED
          qty := q
          note := some ("OC " ++ poIdStr newPO.id ++ " creada (DEMO)")
          poId := some newPO.id
          ticketId := ticketId }
      let s3 :=
        if truthyStr ticketId then
          updateTicket s2 (ticketId.getD "") { poId := some newPO.id }
            ("OC vinculada: " ++ poIdStr newPO.id)
        else s2
      ({ ok := true, message := "OC generada: " ++ poIdStr newPO.id, poId := some newPO.id }, s3)

/-- src/AppContext.tsx `receivePO`. -/
def receivePO (s : AppState) (poId : Nat) : CmdResult × AppState :=
  if !canCreatePO s.role then
    ({ ok := false, message := "Solo Gerencia puede recibir OC (DEMO)." }, s)
  else
    match s.pos.find? (fun p => p.id = poId) with
    | none => ({ ok := false, message := "OC no encontrada." }, s)
    | some po =>
      if po.status = POStatus.RECEIVED then
        ({ ok := false, message := "Esta OC ya fue recibida." }, s)
      else
        let s1 := { s with
          parts := s.parts.map (fun p =>
            match po.items.find? (fun i => i.partId = p.id) with
            | some item => { p with stockOnHand := p.stockOnHand + item.qty }
            | none => p) }
        let s2 := po.items.foldl (fun st item =>
          addMovement st
            { partId := item.partId
              mtype := PartMovementType.RECEIVE
              qty := item.qty
              note := some ("Recepción OC " ++ poIdStr po.id ++ " (DEMO)")
              poId := some po.id }) s1
        let s3 := { s2 with
          pos := s2.pos.map (fun p =>
            if p.id = poId then { p with status := POStatus.RECEIVED } else p) }
        let s4 := addMovement s3
          { partId := jsOrStr (po.items.head?.map (fun i => i.partId)) "P-000"
            mtype := PartMovementType.PO_RECEIVED
            qty := po.items.foldl (fun a i => a + i.qty) 0
            note := some ("OC " ++ poIdStr po.id ++ " marcada como Recibida (DEMO)")
            poId := some po.id }
        ({ ok := true, message := "OC " ++ poIdStr po.id ++ " recibida y stock actualizado." }, s4)

/-- src/AppContext.tsx `adjustStock` (`Math.trunc` is the identity on
integer deltas). -/
def adjustStock (s : AppState) (partId : String) (delta : Int) (note : Option String) :
    CmdResult × AppState :=
  if !canAdjustStock s.role then
    ({ ok := false, message := "Solo Gerencia puede ajustar stock (DEMO)." }, s)
  else
    match s.parts.find? (fun p => p.id = partId) with
    | none => ({ ok := false, message := "Refacción no encontrada." }, s)
    | some _part =>
      let d := jsOrInt (some delta) 0
      if d = 0 then ({ ok := false, message := "Delta inválido." }, s)
      else
        let s1 := { s with
          parts := s.parts.map (fun p =>
            if p.id = partId then { p with stockOnHand := clampNonNeg (p.stockOnHand + d) }
            else p) }
        let s2 := addMovement s1
          { partId := partId
            mtype := PartMovementType.ADJUST
            qty := |d|
            note := some (jsOrStr note
              ("Ajuste de stock " ++ (if 0 < d then "+" else "") ++ toString d ++ " (DEMO)")) }
        ({ ok := true, message := "Stock ajustado (DEMO)." }, s2)

/-- The public inventory command surface of the provider. -/
inductive Cmd
  | reserve (ticketId partId : String) (qty : Int)
  | release (ticketId : String) (note : Option String)
  | issue (ticketId : String) (note : Option String)
  | createPO (partId : String) (qty : Int) (vendor : Option String)
      (etaDays : Option Int) (ticketId : Option String)
  | receive (poId : Nat)
  | adjust (partId : String) (delta : Int) (note : Option String)
deriving DecidableEq

/-- Dispatch one public command. -/
def runCmd (s : AppState) : Cmd → CmdResult × AppState
  | Cmd.reserve ticketId partId qty => reservePartForTicket s ticketId partId qty
  | Cmd.release ticketId note => releaseReservationForTicket s ticketId note
  | Cmd.issue ticketId note => issueReservedPartForTicket s ticketId note
  | Cmd.createPO partId qty vendor etaDays ticketId =>
      createPOForPart s partId qty vendor etaDays ticketId
  | Cmd.receive poId => receivePO s poId
  | Cmd.adjust partId delta note => adjustStock s partId delta note

/-- Run a sequence of public commands, discarding the results. -/
def runCmds (s : AppState) (cs : List Cmd) : AppState :=
  cs.foldl (fun st c => (runCmd st c).2) s

/-! Definitions used to state the claims. -/

/-- Spec-side urgency table (HIGH +50, MEDIUM +30, LOW +10). -/
def specUrgencyPoints (u : Urgency) : ℚ :=
  match u with
  | Urgency.HIGH => 50
  | Urgency.MEDIUM => 30
  | Urgency.LOW => 10

/-- Spec-side impact table (BLOCKING +40, ANNOYING +20, NONE +0). -/
def specImpactPoints (i : Impact) : ℚ :=
  match i with
  | Impact.BLOCKING => 40
  | Impact.ANNOYING => 20
  | Impact.NONE => 0

/-- Spec-side occupancy bonus (+30 if occupied). -/
def specOccupancyPoints (occupied : Bool) : ℚ := if occupied then 30 else 0

/-- Spec-side fractional days-open term
`daysOpen = (now − createdAt) / 1 day`. -/
def specDaysOpen (now createdAt : Int) : ℚ := ((now : ℚ) - (createdAt : ℚ)) / msPerDay

/-- Spec-side age term `min(daysOpen × 5, 30)`. -/
def specAgePoints (now createdAt : Int) : ℚ := min (specDaysOpen now createdAt * 5) 30

/-- The priority formula exactly as the claim states it: 0 for
RESOLVED/VERIFIED, otherwise the rounded sum of the four terms. -/
def specPriority (now : Int) (t : Ticket) : Int :=
  if t.status = TicketStatus.RESOLVED ∨ t.status = TicketStatus.VERIFIED then 0
  else
    jsRound (specUrgencyPoints t.urgency + specImpactPoints t.impact +
      specOccupancyPoints t.isOccupied + specAgePoints now t.createdAt)

/-- Every part of the state has nonnegative on-hand and reserved stock. -/
def partsNonNeg (s : AppState) : Prop :=
  ∀ p ∈ s.parts, 0 ≤ p.stockOnHand ∧ 0 ≤ p.stockReserved

/-- Every purchase-order line item of the state has nonnegative qty. -/
def poItemsNonNeg (s : AppState) : Prop :=
  ∀ po ∈ s.pos, ∀ i ∈ po.items, 0 ≤ i.qty

/-- The `(mtype, partId, qty)` view of a ledger entry (stamp-independent). -/
def movProj (m : PartMovement) : PartMovementType × String × Int :=
  (m.mtype, m.partId, m.qty)

/-- Stock-on-hand effect of one ledger entry under the sign implied by its
type: ISSUE subtracts, RECEIVE adds, ADJUST carries the absolute qty and is
read as an addition, the PO bookkeeping entries carry no stock effect. -/
def projDeltaOnHand (x : PartMovementType × String × Int) : Int :=
  match x.1 with
  | PartMovementType.ISSUE => -x.2.2
  | PartMovementType.RECEIVE => x.2.2
  | PartMovementType.ADJUST => x.2.2
  | _ => 0

/-- Reserved-stock effect of one ledger entry under the sign implied by its
type: RESERVE adds, RELEASE and ISSUE subtract, the rest carry none. -/
def projDeltaReserved (x : PartMovementType × String × Int) : Int :=
  match x.1 with
  | PartMovementType.RESERVE => x.2.2
  | PartMovementType.RELEASE => -x.2.2
  | PartMovementType.ISSUE => -x.2.2
  | _ => 0

/-- Net on-hand effect of replaying a part's ledger entries.  The entries
commute (integer addition), so the sum equals the replay in timestamp
order. -/
def netOnHand (pid : String) (movs : List PartMovement) : Int :=
  ((movs.map movProj).map (fun x => if x.2.1 = pid then projDeltaOnHand x else 0)).sum

/-- Net reserved effect of replaying a part's ledger entries. -/
def netReserved (pid : String) (movs : List PartMovement) : Int :=
  ((movs.map movProj).map (fun x => if x.2.1 = pid then projDeltaReserved x else 0)).sum

/-- Ledger-replay invariant: every part's current stock equals its
pre-ledger baseline plus the net effect of the entries for it. -/
def ReplayInv (base : String → Int × Int) (s : AppState) : Prop :=
  ∀ p ∈ s.parts,
    p.stockOnHand = (base p.id).1 + netOnHand p.id s.movements ∧
    p.stockReserved = (base p.id).2 + netReserved p.id s.movements

/-- Side conditions under which one command's ledger entries replay
exactly: no clamped decrement, positive adjustment deltas, and distinct
part ids per received order. -/
def ReplaySafe (s : AppState) : Cmd → Prop
  | Cmd.reserve tid _ _ =>
      match s.tickets.find? (fun t => t.id = tid) with
      | some t =>
          hasPriorReservation t = true →
          ∀ p ∈ s.parts, p.id = t.partId.getD "" → t.partQty.getD 0 ≤ p.stockReserved
      | none => True
  | Cmd.release tid _ =>
      match s.tickets.find? (fun t => t.id = tid) with
      | some t => ∀ p ∈ s.parts, p.id = t.partId.getD "" → t.partQty.getD 0 ≤ p.stockReserved
      | none => True
  | Cmd.issue tid _ =>
      match s.tickets.find? (fun t => t.id = tid) with
      | some t =>
          ∀ p ∈ s.parts, p.id = t.partId.getD "" →
            max 1 (jsOrInt t.partQty 1) ≤ p.stockReserved ∧
            max 1 (jsOrInt t.partQty 1) ≤ p.stockOnHand
      | none => True
  | Cmd.createPO _ _ _ _ _ => True
  | Cmd.receive poId =>
      match s.pos.find? (fun p => p.id = poId) with
      | some po => (po.items.map (fun i => i.partId)).Nodup
      | none => True
  | Cmd.adjust _ delta _ =>
      0 < delta ∧ ∀ p ∈ s.parts, 0 ≤ p.stockOnHand + delta

/-- The combined effect of a successful re-reservation on one part when no
clamping occurs: the old reservation of `oldQty` on `oldPid` is released
exactly, then `q` is reserved on `pid`. -/
def releaseThenReserveUpdate (oldPid : String) (oldQty : Int) (pid : String) (q : Int)
    (p : InventoryPart) : InventoryPart :=
  let afterRelease := if p.id = oldPid then p.stockReserved - oldQty else p.stockReserved
  { p with stockReserved := if p.id = pid then afterRelease + q else afterRelease }

/-! Concrete fixtures for the scenario parts of the claims. -/

/-- A bare inventory part with the given id and stock levels. -/
def demoPart (i : String) (h r : Int) : InventoryPart :=
  { id := i, name := "Repuesto " ++ i, category := "Otros", unit := "pza",
    stockOnHand := h, stockReserved := r, minStock := 0 }

/-- A bare open ticket with the given id. -/
def demoTicket (i : String) : Ticket :=
  { id := i, roomNumber := "101", isOccupied := false, asset := "Activo",
    issueType := "Incidencia", description := "", urgency := Urgency.LOW,
    impact := Impact.NONE, status := TicketStatus.OPEN, createdAt := 0,
    createdBy := Role.MAINTENANCE }

/-- A management-role state over the given collections, clocks at zero. -/
def demoState (tks : List Ticket) (prts : List InventoryPart)
    (orders : List PurchaseOrder) : AppState :=
  { role := Role.MANAGEMENT, tickets := tks, parts := prts, pos := orders,
    movements := [], now := 0, tick := 0 }

/-- C4 scenario start: two tickets and part P-003 with stock 1, reserved 0. -/
def sTwoTickets : AppState :=
  demoState [demoTicket "T-1001", demoTicket "T-1002"] [demoPart "P-003" 1 0] []

/-- Trace start for the reserve/issue scenarios: one ticket, part P-1 with
stock 5, reserved 0. -/
def sReserveIssue0 : AppState :=
  demoState [demoTicket "T-1"] [demoPart "P-1" 5 0] []

/-- Reachable state after `reserve T-1 P-1 2` followed by `issue T-1`: the
ticket still carries `partId = P-1`, `partQty = 2`, while P-1 holds stock 3
with nothing reserved. -/
def sAfterIssue : AppState :=
  runCmds sReserveIssue0 [Cmd.reserve "T-1" "P-1" 2, Cmd.issue "T-1" none]

/-- C2 counterexample fixture: nonnegative part stock, but a pending PO
whose line item carries qty −1. -/
def sNegItemPO : AppState :=
  demoState [] [demoPart "P-1" 0 0]
    [{ id := 1, status := POStatus.ORDERED, createdAt := 0,
       createdBy := Role.MANAGEMENT, vendor := "V",
       items := [{ partId := "P-1", partName := "Repuesto P-1", qty := -1 }] }]

/-- C9 counterexample fixture: part P-1 with stock 5 and an empty ledger. -/
def sFreshPart : AppState := demoState [] [demoPart "P-1" 5 0] []

/-- Baseline for `sFreshPart`'s ledger replay. -/
def freshBase (pid : String) : Int × Int := if pid = "P-1" then (5, 0) else (0, 0)

/-- C7 fixture: a ticket already in the terminal VERIFIED status. -/
def sVerified : AppState :=
  demoState [{ demoTicket "T-9" with status := TicketStatus.VERIFIED }] [] []

/-- C1 witness fixture PO: an ORDERED purchase order of 12 units of P-005. -/
def demoPO : PurchaseOrder :=
  { id := 2, status := POStatus.ORDERED, createdAt := 0,
    createdBy := Role.MANAGEMENT, vendor := "V",
    items := [{ partId := "P-005", partName := "Repuesto P-005", qty := 12 }] }

/-- C1 witness fixture: part P-005 with stock 3 and `demoPO` pending. -/
def sOrderedPO : AppState :=
  demoState [] [demoPart "P-005" 3 0] [demoPO]

/-- A ticket actively reserving `q` units of part P-1. -/
def reservingTicket (i : String) (q : Int) : Ticket :=
  { demoTicket i with
    needsPart := some true
    partId := some "P-1"
    partName := some "Repuesto P-1"
    partQty := some q
    status := TicketStatus.WAITING_PART }

/-- C5 witness fixture: ticket T-1 actively reserving 2 of part P-1
(stock 5, reserved 2), part P-2 in stock. -/
def sActiveReservation : AppState :=
  demoState [reservingTicket "T-1" 2] [demoPart "P-1" 5 2, demoPart "P-2" 4 0] []

/-- C10 witness fixture: ticket T-1 reserving all stock of part P-1
(stock 2, reserved 2). -/
def sFullyReserved : AppState :=
  demoState [reservingTicket "T-1" 2] [demoPart "P-1" 2 2] []

/-! Theorems. -/

/-- C3: `calculatePriority` returns 0 for RESOLVED/VERIFIED tickets and
otherwise the rounded sum of the urgency (HIGH +50, MEDIUM +30, LOW +10),
impact (BLOCKING +40, ANNOYING +20, NONE +0), occupancy (+30 if occupied)
and capped fractional age (`min(daysOpen × 5, 30)`) terms; being a pure
function of the ticket and the evaluation instant, it is deterministic in
those inputs. -/
theorem calculatePriority_eq_specPriority (now : Int) (t : Ticket) :
    calculatePriority now t = specPriority now t := by
  unfold calculatePriority specPriority specUrgencyPoints specImpactPoints
    specOccupancyPoints specAgePoints specDaysOpen
  rfl

/-- C7 (code behaviour at the failing input): `updateTicket` applies a
requested status change to a ticket that is already VERIFIED — there is no
terminal-status guard in the engine, contradicting the spec's requirement
that the engine reject such transitions. -/
theorem updateTicket_changes_verified_status :
    ((updateTicket sVerified "T-9" { status := some TicketStatus.IN_PROGRESS }
        "Reabierto (DEMO)").tickets.map (fun t => t.status)) =
      [TicketStatus.IN_PROGRESS] := by
  decide

/-- A failed `reservePartForTicket` returns the state untouched. -/
theorem reserve_fail_eq (s : AppState) (tid pid : String) (qty : Int) :
    (reservePartForTicket s tid pid qty).1.ok = false →
    (reservePartForTicket s tid pid qty).2 = s := by
  unfold reservePartForTicket
  dsimp only
  split
  · intro _; rfl
  · split
    · intro _; rfl
    · split
      · intro _; rfl
      · split
        · intro _; rfl
        · intro h; simp at h

/-- A failed `releaseReservationForTicket` returns the state untouched. -/
theorem release_fail_eq (s : AppState) (tid : String) (note : Option String) :
    (releaseReservationForTicket s tid note).1.ok = false →
    (releaseReservationForTicket s tid note).2 = s := by
  unfold releaseReservationForTicket
  dsimp only
  split
  · intro _; rfl
  · split
    · intro _; rfl
    · split
      · intro _; rfl
      · intro h; simp at h

/-- A failed `issueReservedPartForTicket` returns the state untouched. -/
theorem issue_fail_eq (s : AppState) (tid : String) (note : Option String) :
    (issueReservedPartForTicket s tid note).1.ok = false →
    (issueReservedPartForTicket s tid note).2 = s := by
  unfold issueReservedPartForTicket
  dsimp only
  split
  · intro _; rfl
  · split
    · intro _; rfl
    · split
      · intro _; rfl
      · split
        · intro _; rfl
        · intro h; simp at h

/-- A failed `createPOForPart` returns the state untouched. -/
theorem createPO_fail_eq (s : AppState) (pid : String) (qty : Int)
    (vendor : Option String) (etaDays : Option Int) (tid : Option String) :
    (createPOForPart s pid qty vendor etaDays tid).1.ok = false →
    (createPOForPart s pid qty vendor etaDays tid).2 = s := by
  unfold createPOForPart
  dsimp only
  split
  · intro _; rfl
  · split
    · intro _; rfl
    · intro h; simp at h

/-- A failed `receivePO` returns the state untouched. -/
theorem receivePO_fail_eq (s : AppState) (poId : Nat) :
    (receivePO s poId).1.ok = false → (receivePO s poId).2 = s := by
  unfold receivePO
  dsimp only
  split
  · intro _; rfl
  · split
    · intro _; rfl
    · split
      · intro _; rfl
      · intro h; simp at h

/-- A failed `adjustStock` returns the state untouched. -/
theorem adjust_fail_eq (s : AppState) (pid : String) (delta : Int)
    (note : Option String) :
    (adjustStock s pid delta note).1.ok = false → (adjustStock s pid delta note).2 = s := by
  unfold adjustStock
  dsimp only
  split
  · intro _; rfl
  · split
    · intro _; rfl
    · split
      · intro _; rfl
      · intro h; simp at h

/-- C6: every public command that reports a failure (`ok = false`) leaves
the whole store — tickets, parts, movements and purchase orders — exactly
unchanged; failures are structured results (the commands are total
functions into `CmdResult × AppState`, so no exception escapes). -/
theorem failed_command_leaves_state_unchanged (s : AppState) (c : Cmd)
    (h : (runCmd s c).1.ok = false) : (runCmd s c).2 = s := by
  cases c with
  | reserve tid pid qty => exact reserve_fail_eq s tid pid qty h
  | release tid note => exact release_fail_eq s tid note h
  | issue tid note => exact issue_fail_eq s tid note h
  | createPO pid qty vendor etaDays tid => exact createPO_fail_eq s pid qty vendor etaDays tid h
  | receive poId => exact receivePO_fail_eq s poId h
  | adjust pid delta note => exact adjust_fail_eq s pid delta note h

/-- Witness for C6: receiving an unknown PO fails and leaves the fixture
state untouched. -/
theorem failed_command_leaves_state_unchanged_witness :
    (runCmd sTwoTickets (Cmd.receive 7)).1.ok = false ∧
    (runCmd sTwoTickets (Cmd.receive 7)).2 = sTwoTickets :=
  ⟨by decide, failed_command_leaves_state_unchanged sTwoTickets (Cmd.receive 7) (by decide)⟩

/-- C4: `reservePartForTicket` fails on an unknown ticket id, fails on an
unknown part id, fails with the insufficient-stock result whenever the
available stock `max(0, stockOnHand − stockReserved)` is below the
requested qty, and in the concrete scenario a successful qty-1 reservation
of P-003 (stock 1, reserved 0) for T-1001 makes a second qty-1 reservation
for T-1002 fail with the insufficient-stock result. -/
theorem reserve_failure_conditions (s : AppState) (tid pid : String) (qty : Int)
    (hrole : canReserve s.role = true) :
    (s.tickets.find? (fun t => t.id = tid) = none →
      (reservePartForTicket s tid pid qty).1.ok = false) ∧
    (s.parts.find? (fun p => p.id = pid) = none →
      (reservePartForTicket s tid pid qty).1.ok = false) ∧
    (∀ t part, s.tickets.find? (fun x => x.id = tid) = some t →
      s.parts.find? (fun p => p.id = pid) = some part →
      clampNonNeg (part.stockOnHand - part.stockReserved) < qty →
      (reservePartForTicket s tid pid qty).1 =
        { ok := false
          message := insufficientMsg (clampNonNeg (part.stockOnHand - part.stockReserved)) qty }) ∧
    ((runCmd sTwoTickets (Cmd.reserve "T-1001" "P-003" 1)).1.ok = true ∧
      (runCmd (runCmd sTwoTickets (Cmd.reserve "T-1001" "P-003" 1)).2
        (Cmd.reserve "T-1002" "P-003" 1)).1 =
          { ok := false, message := insufficientMsg 0 1 }) := by
  refine ⟨?_, ?_, ?_, by decide, by decide⟩
  · intro hT
    simp [reservePartForTicket, hrole, hT]
  · intro hP
    cases hTf : s.tickets.find? (fun t => t.id = tid) with
    | none => simp [reservePartForTicket, hrole, hTf]
    | some t => simp [reservePartForTicket, hrole, hTf, hP]
  · intro t part hT hP hlt
    have havail : 0 ≤ clampNonNeg (part.stockOnHand - part.stockReserved) :=
      le_max_left 0 _
    have hnorm : normQty qty = qty := by
      unfold normQty jsOrInt
      have hne : qty ≠ 0 := by omega
      simp [hne]
      omega
    simp [reservePartForTicket, hrole, hT, hP, hnorm, hlt, insufficientMsg]

/-- Witness for C4: reserving for an unknown ticket on the fixture fails. -/
theorem reserve_failure_conditions_witness :
    (reservePartForTicket sTwoTickets "T-9999" "P-003" 1).1.ok = false :=
  (reserve_failure_conditions sTwoTickets "T-9999" "P-003" 1 (by decide)).1 (by decide)

/-- C10: the availability check of `reservePartForTicket` runs against
`stockReserved` as it is before the ticket's own prior reservation is
released: with the ticket already reserving `o` of the same part, the call
succeeds only if `max(0, stockOnHand − stockReserved) ≥ normQty qty` with
`o` still counted in `stockReserved`, and it returns the
insufficient-stock failure whenever that available figure is below the
request. -/
theorem reserve_availability_counts_old_reservation (s : AppState)
    (tid pid : String) (qty o : Int) (t : Ticket) (part : InventoryPart)
    (hrole : canReserve s.role = true)
    (hT : s.tickets.find? (fun x => x.id = tid) = some t)
    (_hold : t.partId = some pid) (_hq : t.partQty = some o) (_ho : 0 < o)
    (hP : s.parts.find? (fun p => p.id = pid) = some part) :
    ((reservePartForTicket s tid pid qty).1.ok = true →
      normQty qty ≤ clampNonNeg (part.stockOnHand - part.stockReserved)) ∧
    (clampNonNeg (part.stockOnHand - part.stockReserved) < normQty qty →
      (reservePartForTicket s tid pid qty).1 =
        { ok := false
          message := insufficientMsg (clampNonNeg (part.stockOnHand - part.stockReserved))
            (normQty qty) }) := by
  constructor
  · intro hok
    by_contra hcon
    push_neg at hcon
    simp [reservePartForTicket, hrole, hT, hP, hcon] at hok
  · intro hlt
    simp [reservePartForTicket, hrole, hT, hP, hlt, insufficientMsg]

/-- Witness for C10: T-1 reserves all 2 units of P-1 (stock 2, reserved 2);
raising the same-part reservation to 1..n fails because available is 0 with
the old 2 still counted, although after a release 2 units would be free. -/
theorem reserve_availability_counts_old_reservation_witness :
    (reservePartForTicket sFullyReserved "T-1" "P-1" 1).1 =
      { ok := false, message := insufficientMsg 0 1 } ∧
    (1 : Int) ≤ clampNonNeg (2 - (2 - 2)) := by
  constructor
  · have h := (reserve_availability_counts_old_reservation sFullyReserved "T-1" "P-1" 1 2
      (reservingTicket "T-1" 2) (demoPart "P-1" 2 2) (by decide) (by decide) (by decide)
      (by decide) (by decide) (by decide)).2 (by decide)
    exact h.trans (by decide)
  · decide

/-- C2 counterexample: from a state whose parts all carry nonnegative
stock but whose pending PO has a line item of qty −1, `receivePO` succeeds
and drives `stockOnHand` of P-1 to −1, so the claim's precondition (parts
nonnegative only) does not survive the command sequence `[receive 1]`. -/
theorem partsNonNeg_counterexample :
    partsNonNeg sNegItemPO ∧
    (runCmd sNegItemPO (Cmd.receive 1)).1.ok = true ∧
    ¬ partsNonNeg (runCmds sNegItemPO [Cmd.receive 1]) := by
  unfold partsNonNeg
  decide

/-- C5 counterexample: in the reachable state `sAfterIssue` (reserve 2 of
P-1 for T-1, then issue), the ticket still passes the prior-reservation
guard with `partQty = 2` while P-1 has `stockReserved = 0`; re-reserving
the same part with qty 1 succeeds and the net `stockReserved` change is
+1, not `newQty − oldQty = −1`. -/
theorem rereserve_net_change_counterexample :
    ((sAfterIssue.tickets.find? (fun t => t.id = "T-1")).map hasPriorReservation =
      some true) ∧
    ((sAfterIssue.tickets.find? (fun t => t.id = "T-1")).bind (fun t => t.partQty) =
      some 2) ∧
    (sAfterIssue.parts.map (fun p => p.stockReserved) = [0]) ∧
    ((runCmd sAfterIssue (Cmd.reserve "T-1" "P-1" 1)).1.ok = true) ∧
    ((runCmd sAfterIssue (Cmd.reserve "T-1" "P-1" 1)).2.parts.map
      (fun p => p.stockReserved) = [1]) ∧
    ((1 : Int) - 0 ≠ normQty 1 - 2) := by
  decide

/-- C8 counterexample: after the successful trace reserve-2-then-issue on
P-1 (stock 5 → 3), a second `issueReservedPartForTicket` for the same
ticket is accepted (`ok = true`) and decrements `stockOnHand` again,
3 → 1. -/
theorem second_issue_not_rejected :
    ((runCmd sReserveIssue0 (Cmd.reserve "T-1" "P-1" 2)).1.ok = true) ∧
    ((runCmd (runCmd sReserveIssue0 (Cmd.reserve "T-1" "P-1" 2)).2
      (Cmd.issue "T-1" none)).1.ok = true) ∧
    (sAfterIssue.parts.map (fun p => p.stockOnHand) = [3]) ∧
    ((runCmd sAfterIssue (Cmd.issue "T-1" none)).1.ok = true) ∧
    ((runCmd sAfterIssue (Cmd.issue "T-1" none)).2.parts.map
      (fun p => p.stockOnHand) = [1]) := by
  decide

/-- C9 counterexample: on a part with stock 5 and an empty ledger the
replay invariant holds; `adjustStock` with delta −2 succeeds, clamps the
stock to 3 and logs an ADJUST movement carrying the absolute qty 2, after
which replay (sign implied by type) yields 7 ≠ 3. -/
theorem replay_breaks_on_negative_adjust :
    ReplayInv freshBase sFreshPart ∧
    ((runCmd sFreshPart (Cmd.adjust "P-1" (-2) none)).1.ok = true) ∧
    ¬ ReplayInv freshBase (runCmd sFreshPart (Cmd.adjust "P-1" (-2) none)).2 := by
  unfold ReplayInv
  decide

/-- The function `addMovement` leaves the parts collection untouched. -/
theorem addMovement_parts (s : AppState) (m : MovementDraft) :
    (addMovement s m).parts = s.parts := rfl

/-- The function `addMovement` leaves the purchase orders untouched. -/
theorem addMovement_pos (s : AppState) (m : MovementDraft) :
    (addMovement s m).pos = s.pos := rfl

/-- The function `addMovement` leaves the tickets untouched. -/
theorem addMovement_tickets (s : AppState) (m : MovementDraft) :
    (addMovement s m).tickets = s.tickets := rfl

/-- The function `addMovement` leaves the role untouched. -/
theorem addMovement_role (s : AppState) (m : MovementDraft) :
    (addMovement s m).role = s.role := rfl

/-- The `(mtype, partId, qty)` ledger view of `addMovement` is a cons. -/
theorem map_movProj_addMovement (s : AppState) (m : MovementDraft) :
    (addMovement s m).movements.map movProj =
      (m.mtype, m.partId, m.qty) :: s.movements.map movProj := by
  simp [addMovement, movProj]

/-- A fold of `addMovement`s leaves the parts collection untouched. -/
theorem foldl_addMovement_parts (draft : PurchaseOrderItem → MovementDraft)
    (items : List PurchaseOrderItem) (s : AppState) :
    (items.foldl (fun st i => addMovement st (draft i)) s).parts = s.parts := by
  induction items generalizing s with
  | nil => rfl
  | cons i is ih => simpa [addMovement] using ih (addMovement s (draft i))

/-- A fold of `addMovement`s leaves the purchase orders untouched. -/
theorem foldl_addMovement_pos (draft : PurchaseOrderItem → MovementDraft)
    (items : List PurchaseOrderItem) (s : AppState) :
    (items.foldl (fun st i => addMovement st (draft i)) s).pos = s.pos := by
  induction items generalizing s with
  | nil => rfl
  | cons i is ih => simpa [addMovement] using ih (addMovement s (draft i))

/-- A fold of `addMovement`s leaves the tickets untouched. -/
theorem foldl_addMovement_tickets (draft : PurchaseOrderItem → MovementDraft)
    (items : List PurchaseOrderItem) (s : AppState) :
    (items.foldl (fun st i => addMovement st (draft i)) s).tickets = s.tickets := by
  induction items generalizing s with
  | nil => rfl
  | cons i is ih => simpa [addMovement] using ih (addMovement s (draft i))

/-- A fold of `addMovement`s leaves the role untouched. -/
theorem foldl_addMovement_role (draft : PurchaseOrderItem → MovementDraft)
    (items : List PurchaseOrderItem) (s : AppState) :
    (items.foldl (fun st i => addMovement st (draft i)) s).role = s.role := by
  induction items generalizing s with
  | nil => rfl
  | cons i is ih => simpa [addMovement] using ih (addMovement s (draft i))

/-- The ledger view of a fold of `addMovement`s: the drafted entries in
reverse order, prepended to the old view. -/
theorem foldl_addMovement_movements_proj (draft : PurchaseOrderItem → MovementDraft)
    (items : List PurchaseOrderItem) (s : AppState) :
    (items.foldl (fun st i => addMovement st (draft i)) s).movements.map movProj =
      (items.map (fun i => ((draft i).mtype, (draft i).partId, (draft i).qty))).reverse ++
        s.movements.map movProj := by
  induction items generalizing s with
  | nil => simp
  | cons i is ih =>
      simp only [List.foldl_cons, List.map_cons, List.reverse_cons, List.append_assoc,
        List.singleton_append]
      rw [ih (addMovement s (draft i))]
      simp [addMovement, movProj]

/-- Lookup by id (`find?`) commutes with the status-flipping map of `receivePO`. -/
theorem find?_map_setReceived (l : List PurchaseOrder) (poId : Nat) :
    (l.map (fun p => if p.id = poId then { p with status := POStatus.RECEIVED } else p)).find?
        (fun p => p.id = poId) =
      (l.find? (fun p => p.id = poId)).map
        (fun p => if p.id = poId then { p with status := POStatus.RECEIVED } else p) := by
  have hpred : ((fun p : PurchaseOrder => decide (p.id = poId)) ∘
      (fun p => if p.id = poId then { p with status := POStatus.RECEIVED } else p)) =
      (fun p : PurchaseOrder => decide (p.id = poId)) := by
    funext p
    by_cases h : p.id = poId <;> simp [h]
  rw [List.find?_map, hpred]

/-- C1: receiving a pending PO succeeds, credits each matching part's
`stockOnHand` by its line-item qty, appends one RECEIVE movement per item
plus one summary PO_RECEIVED movement, and flips the PO to RECEIVED; a
second `receivePO` on the same PO fails and leaves the whole state — in
particular every part's stock — unchanged. -/
theorem receivePO_credits_stock_once (s : AppState) (poId : Nat) (po : PurchaseOrder)
    (hrole : canCreatePO s.role = true)
    (hpo : s.pos.find? (fun p => p.id = poId) = some po)
    (hst : po.status ≠ POStatus.RECEIVED) :
    (receivePO s poId).1.ok = true ∧
    (receivePO s poId).2.parts = s.parts.map (fun p =>
      match po.items.find? (fun i => i.partId = p.id) with
      | some item => { p with stockOnHand := p.stockOnHand + item.qty }
      | none => p) ∧
    (receivePO s poId).2.movements.map movProj =
      (PartMovementType.PO_RECEIVED,
        jsOrStr (po.items.head?.map (fun i => i.partId)) "P-000",
        po.items.foldl (fun a i => a + i.qty) 0) ::
      ((po.items.reverse.map (fun i => (PartMovementType.RECEIVE, i.partId, i.qty))) ++
        s.movements.map movProj) ∧
    (receivePO s poId).2.pos.find? (fun p => p.id = poId) =
      some { po with status := POStatus.RECEIVED } ∧
    (receivePO (receivePO s poId).2 poId).1.ok = false ∧
    (receivePO (receivePO s poId).2 poId).2 = (receivePO s poId).2 := by
  have hpoid : po.id = poId := by
    have := List.find?_some hpo
    simpa using this
  have hfind2 : (receivePO s poId).2.pos.find? (fun p => p.id = poId) =
      some { po with status := POStatus.RECEIVED } := by
    simp only [receivePO, hrole, Bool.not_true, Bool.false_eq_true, if_false, hpo, hst,
      ite_false]
    simp only [addMovement_pos]
    rw [foldl_addMovement_pos (fun item =>
      { partId := item.partId, mtype := PartMovementType.RECEIVE, qty := item.qty,
        note := some ("Recepción OC " ++ poIdStr po.id ++ " (DEMO)"), poId := some po.id })]
    rw [find?_map_setReceived, hpo]
    simp [hpoid]
  have hrole2 : (receivePO s poId).2.role = s.role := by
    simp only [receivePO, hrole, Bool.not_true, Bool.false_eq_true, if_false, hpo, hst,
      ite_false]
    simp only [addMovement_role]
    rw [foldl_addMovement_role (fun item =>
      { partId := item.partId, mtype := PartMovementType.RECEIVE, qty := item.qty,
        note := some ("Recepción OC " ++ poIdStr po.id ++ " (DEMO)"), poId := some po.id })]
  refine ⟨?_, ?_, ?_, hfind2, ?_, ?_⟩
  · simp only [receivePO, hrole, Bool.not_true, Bool.false_eq_true, if_false, hpo, hst,
      ite_false]
  · simp only [receivePO, hrole, Bool.not_true, Bool.false_eq_true, if_false, hpo, hst,
      ite_false]
    simp only [addMovement_parts]
    rw [foldl_addMovement_parts (fun item =>
      { partId := item.partId, mtype := PartMovementType.RECEIVE, qty := item.qty,
        note := some ("Recepción OC " ++ poIdStr po.id ++ " (DEMO)"), poId := some po.id })]
  · simp only [receivePO, hrole, Bool.not_true, Bool.false_eq_true, if_false, hpo, hst,
      ite_false]
    simp only [map_movProj_addMovement]
    rw [foldl_addMovement_movements_proj (fun item =>
      { partId := item.partId, mtype := PartMovementType.RECEIVE, qty := item.qty,
        note := some ("Recepción OC " ++ poIdStr po.id ++ " (DEMO)"), poId := some po.id })]
    simp [movProj]
  · generalize hs4 : (receivePO s poId).2 = s4 at hfind2 hrole2
    simp only [receivePO, hrole2, hrole, Bool.not_true, Bool.false_eq_true, if_false, hfind2]
    rw [if_pos trivial]
  · generalize hs4 : (receivePO s poId).2 = s4 at hfind2 hrole2
    simp only [receivePO, hrole2, hrole, Bool.not_true, Bool.false_eq_true, if_false, hfind2]
    rw [if_pos trivial]

/-- Witness for C1: receiving `demoPO` (12 units of P-005) succeeds and a
second receive on the same PO is rejected. -/
theorem receivePO_credits_stock_once_witness :
    (receivePO sOrderedPO 2).1.ok = true ∧
    (receivePO (receivePO sOrderedPO 2).2 2).1.ok = false :=
  ⟨(receivePO_credits_stock_once sOrderedPO 2 demoPO (by decide) (by decide) (by decide)).1,
   (receivePO_credits_stock_once sOrderedPO 2 demoPO (by decide) (by decide)
      (by decide)).2.2.2.2.1⟩

/-- The function `updateTicket` leaves the parts collection untouched. -/
theorem updateTicket_parts (s : AppState) (id : String) (u : TicketPatch) (a : String) :
    (updateTicket s id u a).parts = s.parts := rfl

/-- The function `updateTicket` leaves the purchase orders untouched. -/
theorem updateTicket_pos (s : AppState) (id : String) (u : TicketPatch) (a : String) :
    (updateTicket s id u a).pos = s.pos := rfl

/-- The function `updateTicket` leaves the movements untouched. -/
theorem updateTicket_movements (s : AppState) (id : String) (u : TicketPatch) (a : String) :
    (updateTicket s id u a).movements = s.movements := rfl

/-- The function `updateTicket` leaves the role untouched. -/
theorem updateTicket_role (s : AppState) (id : String) (u : TicketPatch) (a : String) :
    (updateTicket s id u a).role = s.role := rfl

/-- The function `clampNonNeg` never returns a negative number. -/
theorem clampNonNeg_nonneg (n : Int) : 0 ≤ clampNonNeg n := le_max_left 0 n

/-- The normalised reservation qty is at least 1. -/
theorem one_le_normQty (q : Int) : 1 ≤ normQty q := le_max_left 1 _

/-- The normalised reservation qty is nonnegative. -/
theorem normQty_nonneg (q : Int) : 0 ≤ normQty q :=
  le_trans zero_le_one (one_le_normQty q)

/-- The function `reservePartForTicket` preserves nonnegative stock and PO items. -/
theorem reserve_preserves_inv (s : AppState) (tid pid : String) (qty : Int)
    (hp : partsNonNeg s) (hq : poItemsNonNeg s) :
    partsNonNeg (reservePartForTicket s tid pid qty).2 ∧
    poItemsNonNeg (reservePartForTicket s tid pid qty).2 := by
  unfold reservePartForTicket
  dsimp only
  split
  · exact ⟨hp, hq⟩
  · split
    · exact ⟨hp, hq⟩
    · split
      · exact ⟨hp, hq⟩
      · split
        · exact ⟨hp, hq⟩
        · split
          · constructor
            · intro p hmem
              simp only [addMovement_parts, updateTicket_parts] at hmem
              simp only [List.mem_map] at hmem
              obtain ⟨p1, hp1, rfl⟩ := hmem
              obtain ⟨p0, hp0, rfl⟩ := hp1
              have h0 := hp p0 hp0
              split_ifs <;> (try dsimp only) <;>
                first
                  | exact h0
                  | exact ⟨h0.1, add_nonneg (clampNonNeg_nonneg _) (normQty_nonneg _)⟩
                  | exact ⟨h0.1, clampNonNeg_nonneg _⟩
                  | exact ⟨h0.1, add_nonneg h0.2 (normQty_nonneg _)⟩
            · intro po hpo
              simp only [addMovement_pos, updateTicket_pos] at hpo
              exact hq po hpo
          · constructor
            · intro p hmem
              simp only [addMovement_parts, updateTicket_parts] at hmem
              simp only [List.mem_map] at hmem
              obtain ⟨p0, hp0, rfl⟩ := hmem
              have h0 := hp p0 hp0
              split_ifs <;> (try dsimp only) <;>
                first
                  | exact h0
                  | exact ⟨h0.1, add_nonneg h0.2 (normQty_nonneg _)⟩
            · intro po hpo
              simp only [addMovement_pos, updateTicket_pos] at hpo
              exact hq po hpo

/-- The function `releaseReservationForTicket` preserves nonnegative stock and PO items. -/
theorem release_preserves_inv (s : AppState) (tid : String) (note : Option String)
    (hp : partsNonNeg s) (hq : poItemsNonNeg s) :
    partsNonNeg (releaseReservationForTicket s tid note).2 ∧
    poItemsNonNeg (releaseReservationForTicket s tid note).2 := by
  unfold releaseReservationForTicket
  dsimp only
  split
  · exact ⟨hp, hq⟩
  · split
    · exact ⟨hp, hq⟩
    · split
      · exact ⟨hp, hq⟩
      · constructor
        · intro p hmem
          simp only [updateTicket_parts, addMovement_parts] at hmem
          simp only [List.mem_map] at hmem
          obtain ⟨p0, hp0, rfl⟩ := hmem
          have h0 := hp p0 hp0
          split_ifs <;> (try dsimp only) <;>
            first
              | exact h0
              | exact ⟨h0.1, clampNonNeg_nonneg _⟩
        · intro po hpo
          simp only [updateTicket_pos, addMovement_pos] at hpo
          exact hq po hpo

/-- The function `issueReservedPartForTicket` preserves nonnegative stock and PO items. -/
theorem issue_preserves_inv (s : AppState) (tid : String) (note : Option String)
    (hp : partsNonNeg s) (hq : poItemsNonNeg s) :
    partsNonNeg (issueReservedPartForTicket s tid note).2 ∧
    poItemsNonNeg (issueReservedPartForTicket s tid note).2 := by
  unfold issueReservedPartForTicket
  dsimp only
  split
  · exact ⟨hp, hq⟩
  · split
    · exact ⟨hp, hq⟩
    · split
      · exact ⟨hp, hq⟩
      · split
        · exact ⟨hp, hq⟩
        · constructor
          · intro p hmem
            simp only [updateTicket_parts, addMovement_parts] at hmem
            simp only [List.mem_map] at hmem
            obtain ⟨p0, hp0, rfl⟩ := hmem
            have h0 := hp p0 hp0
            split_ifs <;> (try dsimp only) <;>
              first
                | exact h0
                | exact ⟨clampNonNeg_nonneg _, clampNonNeg_nonneg _⟩
          · intro po hpo
            simp only [updateTicket_pos, addMovement_pos] at hpo
            exact hq po hpo

/-- The function `createPOForPart` preserves nonnegative stock and PO items. -/
theorem createPO_preserves_inv (s : AppState) (pid : String) (qty : Int)
    (vendor : Option String) (etaDays : Option Int) (tid : Option String)
    (hp : partsNonNeg s) (hq : poItemsNonNeg s) :
    partsNonNeg (createPOForPart s pid qty vendor etaDays tid).2 ∧
    poItemsNonNeg (createPOForPart s pid qty vendor etaDays tid).2 := by
  unfold createPOForPart
  dsimp only
  split
  · exact ⟨hp, hq⟩
  · split
    · exact ⟨hp, hq⟩
    · split
      · constructor
        · intro p hmem
          simp only [updateTicket_parts, addMovement_parts] at hmem
          exact hp p hmem
        · intro po hpo
          simp only [updateTicket_pos, addMovement_pos] at hpo
          rcases List.mem_cons.mp hpo with hnew | hold
          · subst hnew
            intro i hi
            simp only [List.mem_singleton] at hi
            subst hi
            exact normQty_nonneg qty
          · exact hq po hold
      · constructor
        · intro p hmem
          simp only [updateTicket_parts, addMovement_parts] at hmem
          exact hp p hmem
        · intro po hpo
          simp only [updateTicket_pos, addMovement_pos] at hpo
          rcases List.mem_cons.mp hpo with hnew | hold
          · subst hnew
            intro i hi
            simp only [List.mem_singleton] at hi
            subst hi
            exact normQty_nonneg qty
          · exact hq po hold

/-- The function `receivePO` preserves nonnegative stock and PO items as long as the
incoming PO items are nonnegative. -/
theorem receive_preserves_inv (s : AppState) (poId : Nat)
    (hp : partsNonNeg s) (hq : poItemsNonNeg s) :
    partsNonNeg (receivePO s poId).2 ∧ poItemsNonNeg (receivePO s poId).2 := by
  unfold receivePO
  dsimp only
  split
  · exact ⟨hp, hq⟩
  · split
    · exact ⟨hp, hq⟩
    · split
      · exact ⟨hp, hq⟩
      · rename_i x po hpofind hstat
        have hpomem : po ∈ s.pos := List.mem_of_find?_eq_some hpofind
        constructor
        · intro p hmem
          simp only [addMovement_parts, foldl_addMovement_parts] at hmem
          simp only [List.mem_map] at hmem
          obtain ⟨p0, hp0, rfl⟩ := hmem
          have h0 := hp p0 hp0
          split
          · rename_i item hitemfind
            have hitem : item ∈ po.items := List.mem_of_find?_eq_some hitemfind
            exact ⟨add_nonneg h0.1 (hq po hpomem item hitem), h0.2⟩
          · exact h0
        · intro po' hpo'
          simp only [addMovement_pos, foldl_addMovement_pos] at hpo'
          simp only [List.mem_map] at hpo'
          obtain ⟨po0, hpo0, rfl⟩ := hpo'
          intro i hi
          split_ifs at hi <;> (try dsimp only at hi) <;> exact hq po0 hpo0 i hi

/-- The function `adjustStock` preserves nonnegative stock and PO items. -/
theorem adjust_preserves_inv (s : AppState) (pid : String) (delta : Int)
    (note : Option String) (hp : partsNonNeg s) (hq : poItemsNonNeg s) :
    partsNonNeg (adjustStock s pid delta note).2 ∧
    poItemsNonNeg (adjustStock s pid delta note).2 := by
  unfold adjustStock
  dsimp only
  split
  · exact ⟨hp, hq⟩
  · split
    · exact ⟨hp, hq⟩
    · split
      · exact ⟨hp, hq⟩
      · constructor
        · intro p hmem
          simp only [addMovement_parts] at hmem
          simp only [List.mem_map] at hmem
          obtain ⟨p0, hp0, rfl⟩ := hmem
          have h0 := hp p0 hp0
          split_ifs <;> (try dsimp only) <;>
            first
              | exact h0
              | exact ⟨clampNonNeg_nonneg _, h0.2⟩
        · intro po hpo
          simp only [addMovement_pos] at hpo
          exact hq po hpo

/-- Any single public command preserves both nonnegativity invariants. -/
theorem runCmd_preserves_inv (s : AppState) (c : Cmd)
    (hp : partsNonNeg s) (hq : poItemsNonNeg s) :
    partsNonNeg (runCmd s c).2 ∧ poItemsNonNeg (runCmd s c).2 := by
  cases c with
  | reserve tid pid qty => exact reserve_preserves_inv s tid pid qty hp hq
  | release tid note => exact release_preserves_inv s tid note hp hq
  | issue tid note => exact issue_preserves_inv s tid note hp hq
  | createPO pid qty vendor etaDays tid =>
      exact createPO_preserves_inv s pid qty vendor etaDays tid hp hq
  | receive poId => exact receive_preserves_inv s poId hp hq
  | adjust pid delta note => exact adjust_preserves_inv s pid delta note hp hq

/-- C2 (amended): from a state whose parts all have `stockOnHand ≥ 0` and
`stockReserved ≥ 0` and whose purchase-order line items all have
nonnegative qty, every sequence of the six public commands keeps every
part's `stockOnHand` and `stockReserved` nonnegative.  (The extra PO-item
precondition is needed: `receivePO` adds line-item qtys to stock without
clamping, see the counterexample.) -/
theorem commands_preserve_nonneg_stock (s : AppState) (cs : List Cmd)
    (hp : partsNonNeg s) (hq : poItemsNonNeg s) :
    partsNonNeg (runCmds s cs) := by
  suffices h : partsNonNeg (runCmds s cs) ∧ poItemsNonNeg (runCmds s cs) from h.1
  induction cs generalizing s with
  | nil => exact ⟨hp, hq⟩
  | cons c cs ih =>
      have hstep := runCmd_preserves_inv s c hp hq
      exact ih (runCmd s c).2 hstep.1 hstep.2

/-- Witness for C2 (amended): the reserve/issue trace on the fixture keeps
all stock nonnegative. -/
theorem commands_preserve_nonneg_stock_witness :
    partsNonNeg (runCmds sReserveIssue0 [Cmd.reserve "T-1" "P-1" 2, Cmd.issue "T-1" none]) :=
  commands_preserve_nonneg_stock sReserveIssue0
    [Cmd.reserve "T-1" "P-1" 2, Cmd.issue "T-1" none]
    (by unfold partsNonNeg; decide) (by unfold poItemsNonNeg; decide)

/-- The function `addMovement` leaves the wall clock untouched. -/
theorem addMovement_now (s : AppState) (m : MovementDraft) : (addMovement s m).now = s.now := rfl

/-- A `find?` commutes with a map whose function preserves the predicate. -/
theorem find?_map_of_pred {α : Type} (l : List α) (p : α → Bool) (f : α → α)
    (hf : ∀ a, p (f a) = p a) :
    (l.map f).find? p = (l.find? p).map f := by
  have hpf : p ∘ f = p := funext hf
  rw [List.find?_map, hpf]

/-- The function `patchTicket` keeps the ticket id. -/
theorem patchTicket_id (now : Int) (role : Role) (t : Ticket) (u : TicketPatch) (a : String) :
    (patchTicket now role t u a).id = t.id := rfl

/-- The `needsPart := false` patch keeps `partId`. -/
theorem patchTicket_partId_of_none (now : Int) (role : Role) (t : Ticket) (a : String) :
    (patchTicket now role t { needsPart := some false } a).partId = t.partId := rfl

/-- The `needsPart := false` patch keeps `partQty`. -/
theorem patchTicket_partQty_of_none (now : Int) (role : Role) (t : Ticket) (a : String) :
    (patchTicket now role t { needsPart := some false } a).partQty = t.partQty := rfl

/-- The tickets collection after `updateTicket`, as a map. -/
theorem updateTicket_tickets (s : AppState) (id : String) (u : TicketPatch) (a : String) :
    (updateTicket s id u a).tickets =
      s.tickets.map (fun t => if t.id = id then patchTicket s.now s.role t u a else t) := rfl

/-- Parts after a successful issue: both stock figures clamped down by the
normalised ticket qty. -/
theorem issue_once_parts (s : AppState) (tid : String) (note : Option String)
    (t : Ticket) (hrole : canReserve s.role = true)
    (hT : s.tickets.find? (fun x => x.id = tid) = some t)
    (hlink : (truthyStr t.partId && truthyInt t.partQty) = true)
    (part : InventoryPart)
    (hP : s.parts.find? (fun p => p.id = t.partId.getD "") = some part) :
    (issueReservedPartForTicket s tid note).2.parts =
      s.parts.map (fun p =>
        if p.id = t.partId.getD "" then
          { p with
            stockReserved := clampNonNeg (p.stockReserved - max 1 (jsOrInt t.partQty 1))
            stockOnHand := clampNonNeg (p.stockOnHand - max 1 (jsOrInt t.partQty 1)) }
        else p) := by
  simp only [issueReservedPartForTicket, hrole, Bool.not_true, Bool.false_eq_true, if_false,
    hT, hlink, hP, ite_false, updateTicket_parts, addMovement_parts]

/-- Tickets after a successful issue: the ticket is patched with
`needsPart := false`, keeping its part linkage. -/
theorem issue_once_tickets (s : AppState) (tid : String) (note : Option String)
    (t : Ticket) (hrole : canReserve s.role = true)
    (hT : s.tickets.find? (fun x => x.id = tid) = some t)
    (hlink : (truthyStr t.partId && truthyInt t.partQty) = true)
    (part : InventoryPart)
    (hP : s.parts.find? (fun p => p.id = t.partId.getD "") = some part) :
    (issueReservedPartForTicket s tid note).2.tickets.find? (fun x => x.id = tid) =
      some (patchTicket s.now s.role t { needsPart := some false }
        ("Refacción utilizada: " ++ part.name ++ " (x" ++
          toString (max 1 (jsOrInt t.partQty 1)) ++ ")")) := by
  have htid : t.id = tid := by
    have := List.find?_some hT
    simpa using this
  simp only [issueReservedPartForTicket, hrole, Bool.not_true, Bool.false_eq_true, if_false,
    hT, hlink, hP, ite_false, addMovement_tickets, updateTicket_tickets]
  rw [find?_map_of_pred]
  · rw [hT]
    simp [htid, addMovement_now, addMovement_role]
  · intro a
    by_cases h : a.id = tid <;> simp [h, patchTicket_id]

/-- A successful issue reports ok. -/
theorem issue_once_ok (s : AppState) (tid : String) (note : Option String)
    (t : Ticket) (hrole : canReserve s.role = true)
    (hT : s.tickets.find? (fun x => x.id = tid) = some t)
    (hlink : (truthyStr t.partId && truthyInt t.partQty) = true)
    (part : InventoryPart)
    (hP : s.parts.find? (fun p => p.id = t.partId.getD "") = some part) :
    (issueReservedPartForTicket s tid note).1.ok = true := by
  simp only [issueReservedPartForTicket, hrole, Bool.not_true, Bool.false_eq_true, if_false,
    hT, hlink, hP, ite_false]

/-- A successful issue keeps the role. -/
theorem issue_once_role (s : AppState) (tid : String) (note : Option String)
    (t : Ticket) (hrole : canReserve s.role = true)
    (hT : s.tickets.find? (fun x => x.id = tid) = some t)
    (hlink : (truthyStr t.partId && truthyInt t.partQty) = true)
    (part : InventoryPart)
    (hP : s.parts.find? (fun p => p.id = t.partId.getD "") = some part) :
    (issueReservedPartForTicket s tid note).2.role = s.role := by
  simp only [issueReservedPartForTicket, hrole, Bool.not_true, Bool.false_eq_true, if_false,
    hT, hlink, hP, ite_false, updateTicket_role, addMovement_role]

/-- C8 (amended): after a successful `issueReservedPartForTicket`, the
ticket keeps its part linkage, so a second call for the same ticket (with
no new reservation in between) is accepted again — not rejected — and
decrements the part's `stockOnHand` and `stockReserved` by the same qty a
second time, each clamped at zero (so neither ever goes below zero). -/
theorem issue_twice_clamps (s : AppState) (tid : String) (note1 note2 : Option String)
    (t : Ticket) (part : InventoryPart)
    (hrole : canReserve s.role = true)
    (hT : s.tickets.find? (fun x => x.id = tid) = some t)
    (hlink : (truthyStr t.partId && truthyInt t.partQty) = true)
    (hP : s.parts.find? (fun p => p.id = t.partId.getD "") = some part) :
    (issueReservedPartForTicket s tid note1).1.ok = true ∧
    (issueReservedPartForTicket (issueReservedPartForTicket s tid note1).2 tid note2).1.ok =
      true ∧
    ((issueReservedPartForTicket s tid note1).2.parts.find?
        (fun p => p.id = t.partId.getD "") =
      some { part with
        stockOnHand := clampNonNeg (part.stockOnHand - max 1 (jsOrInt t.partQty 1))
        stockReserved := clampNonNeg (part.stockReserved - max 1 (jsOrInt t.partQty 1)) }) ∧
    ((issueReservedPartForTicket (issueReservedPartForTicket s tid note1).2 tid
        note2).2.parts.find? (fun p => p.id = t.partId.getD "") =
      some { part with
        stockOnHand := clampNonNeg (clampNonNeg (part.stockOnHand -
          max 1 (jsOrInt t.partQty 1)) - max 1 (jsOrInt t.partQty 1))
        stockReserved := clampNonNeg (clampNonNeg (part.stockReserved -
          max 1 (jsOrInt t.partQty 1)) - max 1 (jsOrInt t.partQty 1)) }) := by
  have hpid : part.id = t.partId.getD "" := by
    have := List.find?_some hP
    simpa using this
  have hpred : ∀ a : InventoryPart,
      (decide ((if a.id = t.partId.getD "" then
        { a with
          stockReserved := clampNonNeg (a.stockReserved - max 1 (jsOrInt t.partQty 1))
          stockOnHand := clampNonNeg (a.stockOnHand - max 1 (jsOrInt t.partQty 1)) }
        else a).id = t.partId.getD "")) = decide (a.id = t.partId.getD "") := by
    intro a
    by_cases h : a.id = t.partId.getD "" <;> simp [h]
  have hP1 : (issueReservedPartForTicket s tid note1).2.parts.find?
      (fun p => p.id = t.partId.getD "") =
      some { part with
        stockOnHand := clampNonNeg (part.stockOnHand - max 1 (jsOrInt t.partQty 1))
        stockReserved := clampNonNeg (part.stockReserved - max 1 (jsOrInt t.partQty 1)) } := by
    rw [issue_once_parts s tid note1 t hrole hT hlink part hP]
    rw [find?_map_of_pred _ _ _ hpred, hP]
    simp [hpid]
  have hrole1 := issue_once_role s tid note1 t hrole hT hlink part hP
  have hrole1' : canReserve (issueReservedPartForTicket s tid note1).2.role = true := by
    rw [hrole1]; exact hrole
  have hT1 := issue_once_tickets s tid note1 t hrole hT hlink part hP
  have hlink1 : (truthyStr (patchTicket s.now s.role t { needsPart := some false }
      ("Refacción utilizada: " ++ part.name ++ " (x" ++
        toString (max 1 (jsOrInt t.partQty 1)) ++ ")")).partId &&
      truthyInt (patchTicket s.now s.role t { needsPart := some false }
      ("Refacción utilizada: " ++ part.name ++ " (x" ++
        toString (max 1 (jsOrInt t.partQty 1)) ++ ")")).partQty) = true := by
    rw [patchTicket_partId_of_none, patchTicket_partQty_of_none]
    exact hlink
  refine ⟨issue_once_ok s tid note1 t hrole hT hlink part hP, ?_, hP1, ?_⟩
  · exact issue_once_ok _ tid note2 _ hrole1' hT1 hlink1 _ hP1
  · rw [issue_once_parts _ tid note2 _ hrole1' hT1 hlink1 _ hP1]
    simp only [patchTicket_partId_of_none, patchTicket_partQty_of_none]
    rw [find?_map_of_pred _ _ _ hpred, hP1]
    simp [hpid]

/-- Witness for C8 (amended): both issues are accepted on the active
reservation fixture (T-1 holding 2 of P-1, stock 5, reserved 2). -/
theorem issue_twice_clamps_witness :
    (issueReservedPartForTicket sActiveReservation "T-1" none).1.ok = true ∧
    (issueReservedPartForTicket
      (issueReservedPartForTicket sActiveReservation "T-1" none).2 "T-1" none).1.ok = true :=
  ⟨(issue_twice_clamps sActiveReservation "T-1" none none (reservingTicket "T-1" 2)
      (demoPart "P-1" 5 2) (by decide) (by decide) (by decide) (by decide)).1,
   (issue_twice_clamps sActiveReservation "T-1" none none (reservingTicket "T-1" 2)
      (demoPart "P-1" 5 2) (by decide) (by decide) (by decide) (by decide)).2.1⟩

/-- The function `updateTicket` leaves the movement clock untouched. -/
theorem updateTicket_tick (s : AppState) (id : String) (u : TicketPatch) (a : String) :
    (updateTicket s id u a).tick = s.tick := rfl

/-- The function `addMovement` advances the movement clock by one. -/
theorem addMovement_tick (s : AppState) (m : MovementDraft) :
    (addMovement s m).tick = s.tick + 1 := rfl

/-- The function `releaseThenReserveUpdate` keeps the part id. -/
theorem releaseThenReserveUpdate_id (oldPid : String) (oldQty : Int) (pid : String)
    (q : Int) (p : InventoryPart) :
    (releaseThenReserveUpdate oldPid oldQty pid q p).id = p.id := rfl

/-- C5 (amended): when `reservePartForTicket` succeeds for a ticket whose
prior reservation passes the guard, and the old part's `stockReserved` is
at least the old `partQty` (so the release clamp does not bite), the old
reservation is released exactly first — a RELEASE entry with the old qty is
stamped strictly before the new RESERVE entry — and then the new qty is
added to the target's `stockReserved`, so a same-part re-reservation
changes that part's `stockReserved` by exactly `newQty − oldQty`.  (The
extra no-clamp hypothesis is needed: after an issue the ticket keeps a
stale linkage and the release is clamped, see the counterexample.) -/
theorem reserve_releases_prior_reservation (s : AppState) (tid pid : String) (qty : Int)
    (t : Ticket) (part : InventoryPart)
    (hrole : canReserve s.role = true)
    (hT : s.tickets.find? (fun x => x.id = tid) = some t)
    (hprior : hasPriorReservation t = true)
    (hP : s.parts.find? (fun p => p.id = pid) = some part)
    (havail : ¬ (clampNonNeg (part.stockOnHand - part.stockReserved) < normQty qty))
    (hnoclamp : ∀ p ∈ s.parts, p.id = t.partId.getD "" → t.partQty.getD 0 ≤ p.stockReserved) :
    (reservePartForTicket s tid pid qty).1.ok = true ∧
    (reservePartForTicket s tid pid qty).2.parts = s.parts.map
      (releaseThenReserveUpdate (t.partId.getD "") (t.partQty.getD 0) pid (normQty qty)) ∧
    (reservePartForTicket s tid pid qty).2.movements.map movProj =
      (PartMovementType.RESERVE, pid, normQty qty) ::
        (PartMovementType.RELEASE, t.partId.getD "", t.partQty.getD 0) ::
          s.movements.map movProj ∧
    ((reservePartForTicket s tid pid qty).2.movements.tail.head?.map
        (fun m => (m.mtype, m.date)) = some (PartMovementType.RELEASE, s.tick)) ∧
    ((reservePartForTicket s tid pid qty).2.movements.head?.map
        (fun m => (m.mtype, m.date)) = some (PartMovementType.RESERVE, s.tick + 1)) ∧
    (t.partId.getD "" = pid →
      ((reservePartForTicket s tid pid qty).2.parts.find? (fun p => p.id = pid)).map
        (fun p => p.stockReserved) =
        some (part.stockReserved + (normQty qty - t.partQty.getD 0))) := by
  have hpid : part.id = pid := by
    have := List.find?_some hP
    simpa using this
  have hparts : (reservePartForTicket s tid pid qty).2.parts = s.parts.map
      (releaseThenReserveUpdate (t.partId.getD "") (t.partQty.getD 0) pid (normQty qty)) := by
    simp only [reservePartForTicket, hrole, Bool.not_true, Bool.false_eq_true, if_false,
      hT, hP, havail, ite_false, hprior, ite_true, addMovement_parts, updateTicket_parts]
    rw [List.map_map]
    apply List.map_congr_left
    intro p hp
    by_cases h1 : p.id = t.partId.getD ""
    · have hle := hnoclamp p hp h1
      by_cases h2 : p.id = pid
      · have heq : t.partId.getD "" = pid := by rw [← h1, h2]
        simp [Function.comp, releaseThenReserveUpdate, h1, h2, heq, clampNonNeg,
          max_eq_right, sub_nonneg.mpr hle]
      · have hne : ¬ (t.partId.getD "" = pid) := by rw [← h1]; exact h2
        simp [Function.comp, releaseThenReserveUpdate, h1, h2, hne, clampNonNeg,
          max_eq_right, sub_nonneg.mpr hle]
    · by_cases h2 : p.id = pid
      · have hne : ¬ (pid = t.partId.getD "") := by rw [← h2]; exact h1
        simp [Function.comp, releaseThenReserveUpdate, h1, h2, hne]
      · simp [Function.comp, releaseThenReserveUpdate, h1, h2]
  refine ⟨?_, hparts, ?_, ?_, ?_, ?_⟩
  · simp only [reservePartForTicket, hrole, Bool.not_true, Bool.false_eq_true, if_false,
      hT, hP, havail, ite_false, hprior, ite_true]
  · simp only [reservePartForTicket, hrole, Bool.not_true, Bool.false_eq_true, if_false,
      hT, hP, havail, ite_false, hprior, ite_true, map_movProj_addMovement,
      updateTicket_movements]
  · simp only [reservePartForTicket, hrole, Bool.not_true, Bool.false_eq_true, if_false,
      hT, hP, havail, ite_false, hprior, ite_true, addMovement, updateTicket_movements,
      updateTicket_tick]
    simp
  · simp only [reservePartForTicket, hrole, Bool.not_true, Bool.false_eq_true, if_false,
      hT, hP, havail, ite_false, hprior, ite_true, addMovement, updateTicket_movements,
      updateTicket_tick]
    simp
  · intro hsame
    rw [hparts]
    rw [find?_map_of_pred _ _ _ (fun a => by simp [releaseThenReserveUpdate_id]), hP]
    simp [releaseThenReserveUpdate, hpid, hsame]
    ring

/-- Witness for C5 (amended): the active reservation of 2 on P-1 is
released before reserving 3 of P-2, with the ledger showing the RELEASE
entry stamped before the RESERVE entry. -/
theorem reserve_releases_prior_reservation_witness :
    (reservePartForTicket sActiveReservation "T-1" "P-2" 3).1.ok = true ∧
    (reservePartForTicket sActiveReservation "T-1" "P-2" 3).2.movements.map movProj =
      [(PartMovementType.RESERVE, "P-2", 3), (PartMovementType.RELEASE, "P-1", 2)] := by
  have h := reserve_releases_prior_reservation sActiveReservation "T-1" "P-2" 3
    (reservingTicket "T-1" 2) (demoPart "P-2" 4 0) (by decide) (by decide) (by decide)
    (by decide) (by decide) (by decide)
  exact ⟨h.1, h.2.2.1.trans (by decide)⟩

/-- The value `jsOrInt (some x) 0` is the identity (`x || 0` on integers). -/
theorem jsOrInt_some_zero (x : Int) : jsOrInt (some x) 0 = x := by
  unfold jsOrInt
  by_cases h : x = 0
  · simp [h]
  · simp [h]

/-- Net on-hand replay effect of one appended movement. -/
theorem netOnHand_addMovement (pid : String) (s : AppState) (d : MovementDraft) :
    netOnHand pid (addMovement s d).movements =
      (if d.partId = pid then projDeltaOnHand (d.mtype, d.partId, d.qty) else 0) +
        netOnHand pid s.movements := by
  simp [netOnHand, addMovement, movProj, projDeltaOnHand]

/-- Net reserved replay effect of one appended movement. -/
theorem netReserved_addMovement (pid : String) (s : AppState) (d : MovementDraft) :
    netReserved pid (addMovement s d).movements =
      (if d.partId = pid then projDeltaReserved (d.mtype, d.partId, d.qty) else 0) +
        netReserved pid s.movements := by
  simp [netReserved, addMovement, movProj, projDeltaReserved]

/-- Net on-hand replay effect of a fold of appended movements. -/
theorem netOnHand_foldl_addMovement (pid : String) (draft : PurchaseOrderItem → MovementDraft)
    (items : List PurchaseOrderItem) (s : AppState) :
    netOnHand pid ((items.foldl (fun st i => addMovement st (draft i)) s).movements) =
      (items.map (fun i => if (draft i).partId = pid then
        projDeltaOnHand ((draft i).mtype, (draft i).partId, (draft i).qty) else 0)).sum +
      netOnHand pid s.movements := by
  induction items generalizing s with
  | nil => simp
  | cons i is ih =>
      simp only [List.foldl_cons, List.map_cons, List.sum_cons]
      rw [ih (addMovement s (draft i)), netOnHand_addMovement]
      ring

/-- Net reserved replay effect of a fold of appended movements. -/
theorem netReserved_foldl_addMovement (pid : String) (draft : PurchaseOrderItem → MovementDraft)
    (items : List PurchaseOrderItem) (s : AppState) :
    netReserved pid ((items.foldl (fun st i => addMovement st (draft i)) s).movements) =
      (items.map (fun i => if (draft i).partId = pid then
        projDeltaReserved ((draft i).mtype, (draft i).partId, (draft i).qty) else 0)).sum +
      netReserved pid s.movements := by
  induction items generalizing s with
  | nil => simp
  | cons i is ih =>
      simp only [List.foldl_cons, List.map_cons, List.sum_cons]
      rw [ih (addMovement s (draft i)), netReserved_addMovement]
      ring

/-- With pairwise-distinct part ids, the filtered qty sum over a PO's items
equals the qty of the first (hence only) matching item. -/
theorem sum_if_qty_of_nodup (items : List PurchaseOrderItem) (x : String)
    (hnd : (items.map (fun i => i.partId)).Nodup) :
    (items.map (fun i => if i.partId = x then i.qty else 0)).sum =
      (match items.find? (fun i => i.partId = x) with
        | some item => item.qty
        | none => 0) := by
  induction items with
  | nil => simp
  | cons i is ih =>
      simp only [List.map_cons, List.nodup_cons] at hnd
      obtain ⟨hni, hnd2⟩ := hnd
      by_cases h : i.partId = x
      · have hsum : (is.map (fun j => if j.partId = x then j.qty else 0)).sum = 0 := by
          apply List.sum_eq_zero
          intro y hy
          obtain ⟨j, hj, rfl⟩ := List.mem_map.mp hy
          have hne : j.partId ≠ x := by
            intro hc
            exact hni (List.mem_map.mpr ⟨j, hj, hc.trans h.symm⟩)
          simp [hne]
        simp [h, hsum, List.find?_cons_of_pos]
      · simp only [List.map_cons, List.sum_cons, if_neg h]
        rw [ih hnd2]
        have hdec : (decide (i.partId = x)) = false := by simp [h]
        simp [List.find?_cons_of_neg, hdec]

/-- The function `adjustStock` preserves the replay invariant under its side conditions. -/
theorem replay_adjust (base : String → Int × Int) (s : AppState) (pid : String)
    (delta : Int) (note : Option String)
    (hinv : ReplayInv base s) (hsafe : ReplaySafe s (Cmd.adjust pid delta note)) :
    ReplayInv base (adjustStock s pid delta note).2 := by
  obtain ⟨hdpos, hok⟩ := hsafe
  unfold adjustStock
  dsimp only
  split
  · exact hinv
  · split
    · exact hinv
    · split
      · exact hinv
      · intro p hp
        simp only [addMovement_parts] at hp
        simp only [List.mem_map] at hp
        obtain ⟨p0, hp0, rfl⟩ := hp
        have h0 := hinv p0 hp0
        have hd : jsOrInt (some delta) 0 = delta := jsOrInt_some_zero delta
        have habs : |delta| = delta := abs_of_pos hdpos
        rw [netOnHand_addMovement, netReserved_addMovement]
        simp only [projDeltaOnHand, projDeltaReserved, hd, habs]
        by_cases h : p0.id = pid
        · have hoh := hok p0 hp0
          simp only [h] at h0 ⊢
          simp only [if_pos rfl, ite_true]
          refine ⟨?_, ?_⟩
          · rw [clampNonNeg, max_eq_right hoh]
            omega
          · omega
        · have hne : ¬ (pid = p0.id) := fun hc => h hc.symm
          simp only [if_neg h, if_neg hne, ite_false]
          refine ⟨?_, ?_⟩
          · omega
          · omega

/-- The function `releaseReservationForTicket` preserves the replay invariant under its
side conditions. -/
theorem replay_release (base : String → Int × Int) (s : AppState) (tid : String)
    (note : Option String)
    (hinv : ReplayInv base s) (hsafe : ReplaySafe s (Cmd.release tid note)) :
    ReplayInv base (releaseReservationForTicket s tid note).2 := by
  simp only [ReplaySafe] at hsafe
  unfold releaseReservationForTicket
  dsimp only
  split
  · exact hinv
  · split
    · exact hinv
    · rename_i x t heq
      rw [heq] at hsafe
      split
      · exact hinv
      · intro p hp
        simp only [updateTicket_parts, addMovement_parts] at hp
        simp only [List.mem_map] at hp
        obtain ⟨p0, hp0, rfl⟩ := hp
        have h0 := hinv p0 hp0
        rw [updateTicket_movements, netOnHand_addMovement, netReserved_addMovement]
        simp only [projDeltaOnHand, projDeltaReserved]
        by_cases h : p0.id = t.partId.getD ""
        · have hle := hsafe p0 hp0 h
          simp only [h] at h0 ⊢
          simp only [if_pos rfl, ite_true]
          refine ⟨?_, ?_⟩
          · omega
          · rw [clampNonNeg, max_eq_right (sub_nonneg.mpr hle)]
            omega
        · have hne : ¬ (t.partId.getD "" = p0.id) := fun hc => h hc.symm
          simp only [if_neg h, if_neg hne, ite_false]
          refine ⟨?_, ?_⟩
          · omega
          · omega

/-- The function `issueReservedPartForTicket` preserves the replay invariant under its
side conditions. -/
theorem replay_issue (base : String → Int × Int) (s : AppState) (tid : String)
    (note : Option String)
    (hinv : ReplayInv base s) (hsafe : ReplaySafe s (Cmd.issue tid note)) :
    ReplayInv base (issueReservedPartForTicket s tid note).2 := by
  simp only [ReplaySafe] at hsafe
  unfold issueReservedPartForTicket
  dsimp only
  split
  · exact hinv
  · split
    · exact hinv
    · rename_i x t heq
      rw [heq] at hsafe
      split
      · exact hinv
      · split
        · exact hinv
        · intro p hp
          simp only [updateTicket_parts, addMovement_parts] at hp
          simp only [List.mem_map] at hp
          obtain ⟨p0, hp0, rfl⟩ := hp
          have h0 := hinv p0 hp0
          rw [updateTicket_movements, netOnHand_addMovement, netReserved_addMovement]
          simp only [projDeltaOnHand, projDeltaReserved]
          by_cases h : p0.id = t.partId.getD ""
          · have hle := hsafe p0 hp0 h
            simp only [h] at h0 ⊢
            simp only [if_pos rfl, ite_true]
            refine ⟨?_, ?_⟩
            · rw [clampNonNeg, max_eq_right (sub_nonneg.mpr hle.2)]
              omega
            · rw [clampNonNeg, max_eq_right (sub_nonneg.mpr hle.1)]
              omega
          · have hne : ¬ (t.partId.getD "" = p0.id) := fun hc => h hc.symm
            simp only [if_neg h, if_neg hne, ite_false]
            refine ⟨?_, ?_⟩
            · omega
            · omega

/-- The function `createPOForPart` preserves the replay invariant (its movement carries
no stock effect). -/
theorem replay_createPO (base : String → Int × Int) (s : AppState) (pid : String)
    (qty : Int) (vendor : Option String) (etaDays : Option Int) (tid : Option String)
    (hinv : ReplayInv base s) :
    ReplayInv base (createPOForPart s pid qty vendor etaDays tid).2 := by
  unfold createPOForPart
  dsimp only
  split
  · exact hinv
  · split
    · exact hinv
    · split
      · intro p hp
        simp only [updateTicket_parts, addMovement_parts] at hp
        have h0 := hinv p hp
        rw [updateTicket_movements, netOnHand_addMovement, netReserved_addMovement]
        simp only [projDeltaOnHand, projDeltaReserved]
        split_ifs <;> refine ⟨by omega, by omega⟩
      · intro p hp
        simp only [addMovement_parts] at hp
        have h0 := hinv p hp
        rw [netOnHand_addMovement, netReserved_addMovement]
        simp only [projDeltaOnHand, projDeltaReserved]
        split_ifs <;> refine ⟨by omega, by omega⟩

/-- The function `reservePartForTicket` preserves the replay invariant under its side
conditions. -/
theorem replay_reserve (base : String → Int × Int) (s : AppState) (tid pid : String)
    (qty : Int)
    (hinv : ReplayInv base s) (hsafe : ReplaySafe s (Cmd.reserve tid pid qty)) :
    ReplayInv base (reservePartForTicket s tid pid qty).2 := by
  simp only [ReplaySafe] at hsafe
  unfold reservePartForTicket
  dsimp only
  split
  · exact hinv
  · split
    · exact hinv
    · rename_i x t heq
      rw [heq] at hsafe
      split
      · exact hinv
      · split
        · exact hinv
        · split
          · rename_i hprior
            have hsafe2 := hsafe hprior
            intro p hp
            simp only [addMovement_parts, updateTicket_parts] at hp
            simp only [List.mem_map] at hp
            obtain ⟨p1, hp1, rfl⟩ := hp
            obtain ⟨p0, hp0, rfl⟩ := hp1
            have h0 := hinv p0 hp0
            simp only [updateTicket_movements, netOnHand_addMovement,
              netReserved_addMovement, projDeltaOnHand, projDeltaReserved]
            by_cases h1 : p0.id = t.partId.getD ""
            · have hle := hsafe2 p0 hp0 h1
              by_cases h2 : p0.id = pid
              · simp only [if_pos h1, if_pos h2, if_pos h1.symm, if_pos h2.symm]
                refine ⟨by omega, ?_⟩
                rw [clampNonNeg, max_eq_right (sub_nonneg.mpr hle)]
                omega
              · have h2s : ¬ (pid = p0.id) := fun hc => h2 hc.symm
                simp only [if_pos h1, if_neg h2, if_pos h1.symm, if_neg h2s]
                refine ⟨by omega, ?_⟩
                rw [clampNonNeg, max_eq_right (sub_nonneg.mpr hle)]
                omega
            · have h1s : ¬ (t.partId.getD "" = p0.id) := fun hc => h1 hc.symm
              by_cases h2 : p0.id = pid
              · simp only [if_neg h1, if_pos h2, if_neg h1s, if_pos h2.symm]
                refine ⟨by omega, by omega⟩
              · have h2s : ¬ (pid = p0.id) := fun hc => h2 hc.symm
                simp only [if_neg h1, if_neg h2, if_neg h1s, if_neg h2s]
                refine ⟨by omega, by omega⟩
          · intro p hp
            simp only [addMovement_parts, updateTicket_parts] at hp
            simp only [List.mem_map] at hp
            obtain ⟨p0, hp0, rfl⟩ := hp
            have h0 := hinv p0 hp0
            simp only [updateTicket_movements, netOnHand_addMovement,
              netReserved_addMovement, projDeltaOnHand, projDeltaReserved]
            by_cases h2 : p0.id = pid
            · simp only [if_pos h2, if_pos h2.symm]
              refine ⟨by omega, by omega⟩
            · have h2s : ¬ (pid = p0.id) := fun hc => h2 hc.symm
              simp only [if_neg h2, if_neg h2s]
              refine ⟨by omega, by omega⟩

/-- The function `receivePO` preserves the replay invariant under its side conditions. -/
theorem replay_receive (base : String → Int × Int) (s : AppState) (poId : Nat)
    (hinv : ReplayInv base s) (hsafe : ReplaySafe s (Cmd.receive poId)) :
    ReplayInv base (receivePO s poId).2 := by
  simp only [ReplaySafe] at hsafe
  unfold receivePO
  dsimp only
  split
  · exact hinv
  · split
    · exact hinv
    · rename_i x po heq
      rw [heq] at hsafe
      split
      · exact hinv
      · intro p hp
        simp only [addMovement_parts, foldl_addMovement_parts] at hp
        simp only [List.mem_map] at hp
        obtain ⟨p0, hp0, rfl⟩ := hp
        have h0 := hinv p0 hp0
        simp only [netOnHand_addMovement, netReserved_addMovement]
        rw [netOnHand_foldl_addMovement, netReserved_foldl_addMovement]
        simp only [projDeltaOnHand, projDeltaReserved, ite_self]
        rw [sum_if_qty_of_nodup _ _ hsafe]
        rcases hfind : List.find? (fun i => decide (i.partId = p0.id)) po.items with _ | item
        · simp only [hfind]
          constructor
          · simp
            omega
          · simp
            omega
        · simp only [hfind]
          constructor
          · simp
            omega
          · simp
            omega

/-- C9 (amended): the ledger-replay invariant — every part's current stock
equals its baseline plus the net type-implied effect of its movements
(PO_CREATED/PO_RECEIVED counting zero, ADJUST read as an addition of its
absolute qty) — is preserved by every public command provided no clamped
decrement occurs, adjustments are positive, and a received PO has
pairwise-distinct part ids.  (Without those side conditions the claim
fails, see the counterexample: a negative `adjustStock` logs `|delta|`.) -/
theorem replayInv_preserved (base : String → Int × Int) (s : AppState) (c : Cmd)
    (hinv : ReplayInv base s) (hsafe : ReplaySafe s c) :
    ReplayInv base (runCmd s c).2 := by
  cases c with
  | reserve tid pid qty => exact replay_reserve base s tid pid qty hinv hsafe
  | release tid note => exact replay_release base s tid note hinv hsafe
  | issue tid note => exact replay_issue base s tid note hinv hsafe
  | createPO pid qty vendor etaDays tid =>
      exact replay_createPO base s pid qty vendor etaDays tid hinv
  | receive poId => exact replay_receive base s poId hinv hsafe
  | adjust pid delta note => exact replay_adjust base s pid delta note hinv hsafe

/-- Witness for C9 (amended): a positive adjustment of 2 on the fresh part
fixture keeps the replay invariant. -/
theorem replayInv_preserved_witness :
    ReplayInv freshBase (runCmd sFreshPart (Cmd.adjust "P-1" 2 none)).2 :=
  replayInv_preserved freshBase sFreshPart (Cmd.adjust "P-1" 2 none)
    (by unfold ReplayInv; decide) (by unfold ReplaySafe; decide)

end Suites
